import Mathlib

/-!
Shallow embedding of the linkedin-automation repository's posting,
deduplication and caption-formatting logic, together with theorems that
settle the specification claims about it.

Conventions used throughout:
- Python strings are Lean `String`s (both measure length in Unicode code
  points, so `len(s)` is `s.length`).
- Python `datetime` values are modelled as integer timestamps (seconds),
  and `timedelta(days=7)` as the constant `sevenDays`.
- Network calls, file systems and `input()` are modelled as explicit
  oracle values passed into the embedded functions; a call that raises an
  exception is an `Option.none` / `Except.error` outcome.
- A Python `try/except` that swallows exceptions is an explicit `match` on
  an `Except` body.
-/

namespace Py

/-- Helper for Python `str.replace`: does the pattern occur at the head of
the character list? -/
def matchesAt : List Char → List Char → Bool
  | [], _ => true
  | _ :: _, [] => false
  | p :: ps, c :: cs => p = c && matchesAt ps cs

/-- Fuel-indexed worker for Python `str.replace` (replace all
non-overlapping occurrences, scanning left to right). The fuel is set to
the length of the scanned list, which is always sufficient for a nonempty
pattern; every call site in the embedded code passes a nonempty pattern. -/
def replaceAux (pat rep : List Char) : Nat → List Char → List Char
  | _, [] => []
  | 0, l => l
  | fuel + 1, c :: cs =>
    if matchesAt pat (c :: cs) then
      rep ++ replaceAux pat rep fuel (List.drop (pat.length - 1) cs)
    else
      c :: replaceAux pat rep fuel cs

/-- Python `s.replace(pat, rep)` for a nonempty pattern. -/
def pyReplace (s pat rep : String) : String :=
  ⟨replaceAux pat.data rep.data s.data.length s.data⟩

/-- Python `s[:-n]` for `n > 0`: drop the last `n` characters (empty when
`n ≥ len(s)`). -/
def pyDropLast (s : String) (n : Nat) : String :=
  ⟨s.data.take (s.data.length - n)⟩

/-- Worker for Python `str.title`: upper-case every cased character that
follows a non-cased one and lower-case the rest (ASCII behaviour, which
covers every topic string in the program). -/
def titleAux : Bool → List Char → List Char
  | _, [] => []
  | prevAlpha, c :: cs =>
    if c.isAlpha then
      (if prevAlpha then c.toLower else c.toUpper) :: titleAux true cs
    else
      c :: titleAux false cs

/-- Python `s.title()`. -/
def pyTitle (s : String) : String := ⟨titleAux false s.data⟩

/-- Python `s.lower()` (ASCII behaviour). -/
def pyLower (s : String) : String := ⟨s.data.map Char.toLower⟩

/-- Python `s.strip()`: remove leading and trailing whitespace. -/
def pyStrip (s : String) : String :=
  ⟨((s.data.dropWhile Char.isWhitespace).reverse.dropWhile Char.isWhitespace).reverse⟩

end Py

open Py

/-! ### config.py -/

/-- Source: `Config.MAX_CAPTION_LENGTH = 1300  # LinkedIn character limit`. -/
def MAX_CAPTION_LENGTH : Nat := 1300

/-! ### caption_generator.py — `CaptionGenerator._format_linkedin_post`

The three f-string templates are reproduced character for character from
the source file (the source file stores the emoji as mojibake, e.g. the
four characters `ðŸš€`; Python reads exactly those characters, and so do
we). `random.choice(templates)` is modelled by an explicit index `tidx`
supplied by the caller. -/

/-- Template 1 ("Professional insight") of `_format_linkedin_post`. -/
def template1 (title summary topic source article_url : String) : String :=
  "ðŸš€ " ++ title ++ "\n\n" ++ summary ++
  "\n\nðŸ’¡ Key takeaways:\nâ€¢ This highlights the rapid evolution in " ++ topic ++
  "\nâ€¢ Shows the importance of staying updated with industry trends\nâ€¢ Demonstrates how innovation continues to reshape our digital landscape\n\nWhat are your thoughts on this development?\n\n#LinkedInNews #" ++
  pyReplace topic " " "" ++
  " #Innovation #Technology\n\nðŸ“– Read more: " ++ article_url ++
  "\nðŸ“° Source: " ++ source

/-- Template 2 ("Question-focused") of `_format_linkedin_post`. -/
def template2 (title summary topic _source article_url : String) : String :=
  "ðŸ’­ Thought-provoking news from the " ++ topic ++ " world:\n\n" ++
  title ++ "\n\n" ++ summary ++
  "\n\nðŸ¤” This raises an interesting question: How will this impact professionals in our industry?\n\nI\x27d love to hear your perspectives in the comments below.\n\n#" ++
  pyReplace topic " " "" ++
  " #ProfessionalDevelopment #Innovation #Discussion\n\nðŸ”— Full story: " ++ article_url

/-- Template 3 ("Industry analysis") of `_format_linkedin_post`. -/
def template3 (title summary topic source article_url : String) : String :=
  "ðŸ“ˆ Industry Update: " ++ pyTitle topic ++ "\n\n" ++ title ++ "\n\n" ++ summary ++
  "\n\nðŸŽ¯ Why this matters:\nâ†’ Shapes future industry standards\nâ†’ Influences market dynamics  \nâ†’ Creates new opportunities for growth\n\nWhat trends are you seeing in your field?\n\n#IndustryNews #" ++
  pyReplace topic " " "" ++
  " #BusinessInsights #Future\n\nðŸ“š Source: " ++ source ++ "\nðŸ”— " ++ article_url

/-- Source: `CaptionGenerator._format_linkedin_post` (caption_generator.py,
lines 155–224). `max_length` is `self.max_length` (`Config.MAX_CAPTION_LENGTH`);
`tidx` models which template `random.choice` picked (0, 1, anything else = 2).
The final `if` block is the source's attempt to enforce the platform limit:

    if len(selected_template) > self.max_length:
        excess_chars = len(selected_template) - self.max_length + 50
        if excess_chars > 0 and len(summary) > excess_chars:
            summary = summary[:-excess_chars] + "..."
            selected_template = selected_template.replace(summary + "...", summary)
    return selected_template
-/
def format_linkedin_post (max_length : Nat) (tidx : Nat)
    (title summary topic source article_url : String) : String :=
  let selected_template :=
    if tidx = 0 then template1 title summary topic source article_url
    else if tidx = 1 then template2 title summary topic source article_url
    else template3 title summary topic source article_url
  if max_length < selected_template.length then
    let excess_chars := selected_template.length - max_length + 50
    if 0 < excess_chars ∧ excess_chars < summary.length then
      let summary2 := pyDropLast summary excess_chars ++ "..."
      pyReplace selected_template (summary2 ++ "...") summary2
    else selected_template
  else selected_template

/-- Concrete title used to exhibit the failed truncation: 33 characters. -/
def c2Title : String := ⟨List.replicate 33 'X'⟩

/-- Concrete summary used to exhibit the failed truncation: 1001 characters,
chosen so the formatted template is exactly 1400 characters long. -/
def c2Summary : String := "Z" ++ (⟨List.replicate 1000 'a'⟩ : String)

set_option maxRecDepth 8000

/-! ### MD5 (Python `hashlib.md5(...).hexdigest()`)

`EnhancedNewsFetcher.generate_article_id` fingerprints an article with
`hashlib.md5(content.encode()).hexdigest()`. We embed MD5 executably:
all arithmetic is on `Nat` reduced modulo `2^32` where the machine would
overflow. -/

namespace MD5

/-- Bitwise complement within 32 bits (valid for `x < 2^32`). -/
def bnot32 (x : Nat) : Nat := 4294967295 - x

/-- Left rotation of a 32-bit word by `n` bits. -/
def rotl32 (x n : Nat) : Nat :=
  ((x <<< n) % 4294967296) ||| (x >>> (32 - n))

/-- The 64 sine-derived round constants `K[i] = floor(abs(sin(i+1)) * 2^32)`. -/
def K : List Nat :=
  [3614090360, 3905402710, 606105819, 3250441966, 4118548399, 1200080426, 2821735955, 4249261313,
   1770035416, 2336552879, 4294925233, 2304563134, 1804603682, 4254626195, 2792965006, 1236535329,
   4129170786, 3225465664, 643717713, 3921069994, 3593408605, 38016083, 3634488961, 3889429448,
   568446438, 3275163606, 4107603335, 1163531501, 2850285829, 4243563512, 1735328473, 2368359562,
   4294588738, 2272392833, 1839030562, 4259657740, 2763975236, 1272893353, 4139469664, 3200236656,
   681279174, 3936430074, 3572445317, 76029189, 3654602809, 3873151461, 530742520, 3299628645,
   4096336452, 1126891415, 2878612391, 4237533241, 1700485571, 2399980690, 4293915773, 2240044497,
   1873313359, 4264355552, 2734768916, 1309151649, 4149444226, 3174756917, 718787259, 3951481745]

/-- The per-round left-rotation amounts. -/
def S : List Nat :=
  [7, 12, 17, 22, 7, 12, 17, 22, 7, 12, 17, 22, 7, 12, 17, 22,
   5, 9, 14, 20, 5, 9, 14, 20, 5, 9, 14, 20, 5, 9, 14, 20,
   4, 11, 16, 23, 4, 11, 16, 23, 4, 11, 16, 23, 4, 11, 16, 23,
   6, 10, 15, 21, 6, 10, 15, 21, 6, 10, 15, 21, 6, 10, 15, 21]

/-- Byte `i` of a byte list (0 past the end). -/
def byteAt (l : List Nat) (i : Nat) : Nat := l.getD i 0

/-- Little-endian 32-bit word `g` of a 64-byte chunk. -/
def wordAt (chunk : List Nat) (g : Nat) : Nat :=
  byteAt chunk (4 * g) + 256 * byteAt chunk (4 * g + 1) +
    65536 * byteAt chunk (4 * g + 2) + 16777216 * byteAt chunk (4 * g + 3)

/-- One MD5 operation: round `i` applied to the state `(A, B, C, D)` with
message schedule `M`. -/
def round (M : Nat → Nat) (st : Nat × Nat × Nat × Nat) (i : Nat) :
    Nat × Nat × Nat × Nat :=
  let (A, B, C, D) := st
  let Fg : Nat × Nat :=
    if i < 16 then ((B &&& C) ||| (bnot32 B &&& D), i)
    else if i < 32 then ((D &&& B) ||| (bnot32 D &&& C), (5 * i + 1) % 16)
    else if i < 48 then (B ^^^ C ^^^ D, (3 * i + 5) % 16)
    else (C ^^^ (B ||| bnot32 D), (7 * i) % 16)
  let Fv := (Fg.1 + A + K.getD i 0 + M Fg.2) % 4294967296
  (D, (B + rotl32 Fv (S.getD i 0)) % 4294967296, B, C)

/-- Compress one 64-byte chunk into the running state. -/
def processChunk (st : Nat × Nat × Nat × Nat) (chunk : List Nat) :
    Nat × Nat × Nat × Nat :=
  let (a0, b0, c0, d0) := st
  let (A, B, C, D) := (List.range 64).foldl (round (wordAt chunk)) (a0, b0, c0, d0)
  ((a0 + A) % 4294967296, (b0 + B) % 4294967296,
   (c0 + C) % 4294967296, (d0 + D) % 4294967296)

/-- MD5 padding: append `0x80`, zero bytes up to 56 mod 64, then the
original length in bits as a 64-bit little-endian integer. -/
def pad (msg : List Nat) : List Nat :=
  let bitLen := (8 * msg.length) % 18446744073709551616
  let zeros := (120 - (msg.length + 1) % 64) % 64
  msg ++ [128] ++ List.replicate zeros 0 ++
    ((List.range 8).map fun i => (bitLen >>> (8 * i)) % 256)

/-- Split a byte list into 64-byte chunks (fuel-indexed; the fuel
`l.length` always suffices). -/
def chunksAux : Nat → List Nat → List (List Nat)
  | 0, _ => []
  | fuel + 1, l => if l.isEmpty then [] else l.take 64 :: chunksAux fuel (l.drop 64)

/-- Split a byte list into 64-byte chunks. -/
def chunks (l : List Nat) : List (List Nat) := chunksAux l.length l

/-- The four little-endian bytes of a 32-bit word. -/
def wordBytesLE (w : Nat) : List Nat :=
  [w % 256, (w >>> 8) % 256, (w >>> 16) % 256, (w >>> 24) % 256]

/-- Lower-case hex digit. -/
def hexDigit (n : Nat) : Char :=
  if n < 10 then Char.ofNat (48 + n) else Char.ofNat (87 + n)

/-- Two lower-case hex digits of a byte. -/
def byteToHex (b : Nat) : List Char := [hexDigit (b / 16), hexDigit (b % 16)]

/-- MD5 digest of a byte list, as the lower-case hex string produced by
Python's `hexdigest()`. -/
def hexdigest (msg : List Nat) : String :=
  let (a, b, c, d) :=
    (chunks (pad msg)).foldl processChunk (1732584193, 4023233417, 2562383102, 271733878)
  ⟨(wordBytesLE a ++ wordBytesLE b ++ wordBytesLE c ++ wordBytesLE d).flatMap byteToHex⟩

end MD5

/-- UTF-8 encoding of a string as a byte list (Python `str.encode()`). -/
def utf8Bytes (s : String) : List Nat :=
  s.data.flatMap fun c =>
    let n := c.toNat
    if n < 128 then [n]
    else if n < 2048 then [192 + n / 64, 128 + n % 64]
    else if n < 65536 then [224 + n / 4096, 128 + (n / 64) % 64, 128 + n % 64]
    else [240 + n / 262144, 128 + (n / 4096) % 64, 128 + (n / 64) % 64, 128 + n % 64]

/-! ### enhanced_news_fetcher.py — deduplication store

`EnhancedNewsFetcher` keeps `used_articles.json`, a flat JSON dictionary
from article id to an ISO timestamp. We model the file as an association
list (JSON object keys are unique; `used_articles[id] = ...` is an
upsert), timestamps as integer seconds, and `timedelta(days=7)` as
`sevenDays`. The file system is an explicit `FileWorld` oracle; a raised
exception is an `Except.error` of the corresponding body function. -/

/-- Seven days in seconds (`timedelta(days=7)`). -/
def sevenDays : Int := 7 * 86400

/-- One value stored under a key of `used_articles.json`: either a valid
ISO timestamp (modelled by its integer value) or a string that
`datetime.fromisoformat` rejects. -/
inductive StoredTime where
  | iso (t : Int)
  | malformed
deriving DecidableEq, Repr

/-- State of the `used_articles.json` backing file. -/
inductive UsedFile where
  /-- The file does not exist (`os.path.exists` is false). -/
  | absent
  /-- Opening or `json.load`-ing the file raises (corrupt or unreadable). -/
  | unreadable
  /-- The file parses to a dictionary, modelled as an association list with
  distinct keys. -/
  | json (entries : List (String × StoredTime))
deriving DecidableEq, Repr

/-- The file plus whether a write (`open(..., 'w')` / `json.dump`) would
succeed. -/
structure FileWorld where
  file : UsedFile
  writeOk : Bool
deriving DecidableEq, Repr

/-- The file contains no entry that `datetime.fromisoformat` would reject
(true of every file the program itself writes). -/
def UsedFile.wellFormed : UsedFile → Prop
  | .absent => True
  | .unreadable => False
  | .json es => ∀ e ∈ es, e.2 ≠ StoredTime.malformed

instance : DecidablePred UsedFile.wellFormed := fun f =>
  match f with
  | .absent => .isTrue trivial
  | .unreadable => .isFalse fun h => h
  | .json es => inferInstanceAs (Decidable (∀ e ∈ es, e.2 ≠ StoredTime.malformed))

/-- The retention filter of `load_used_articles`: keep an entry iff
`datetime.fromisoformat(timestamp) > cutoff_date` where
`cutoff_date = datetime.now() - timedelta(days=7)`. -/
def freshKeep (now : Int) (e : String × StoredTime) : Bool :=
  match e.2 with
  | .iso t => decide (now - sevenDays < t)
  | .malformed => false

/-- Body of `EnhancedNewsFetcher.load_used_articles` (lines 23–36), before
its `except` clause. Raises (`.error`) when the file is unreadable or when
some stored timestamp fails `datetime.fromisoformat`. -/
def load_used_articles_body (w : FileWorld) (now : Int) :
    Except Unit (List String) :=
  match w.file with
  | .absent => .ok []
  | .unreadable => .error ()
  | .json entries =>
    if ∀ e ∈ entries, e.2 ≠ StoredTime.malformed then
      .ok ((entries.filter (freshKeep now)).map Prod.fst)
    else .error ()

/-- Source: `EnhancedNewsFetcher.load_used_articles` (lines 23–39). The
`except Exception` clause turns any raised error into the empty set. -/
def load_used_articles (w : FileWorld) (now : Int) : List String :=
  match load_used_articles_body w now with
  | .ok ids => ids
  | .error _ => []

/-- Python dict upsert `used_articles[article_id] = now.isoformat()`
(position of the key in the association list is irrelevant to the model). -/
def dictSet (entries : List (String × StoredTime)) (k : String) (t : Int) :
    List (String × StoredTime) :=
  entries.filter (fun e => decide (e.1 ≠ k)) ++ [(k, StoredTime.iso t)]

/-- Body of `EnhancedNewsFetcher.save_used_article` (lines 41–52), before
its `except` clause. Reading the raw dictionary (no retention filter is
applied here), upserting the id, and dumping it back; raises when the
existing file is unreadable or when the write fails. -/
def save_used_article_body (w : FileWorld) (article_id : String) (now : Int) :
    Except Unit FileWorld :=
  match w.file with
  | .unreadable => .error ()
  | .absent =>
    if w.writeOk then .ok { w with file := .json (dictSet [] article_id now) }
    else .error ()
  | .json entries =>
    if w.writeOk then .ok { w with file := .json (dictSet entries article_id now) }
    else .error ()

/-- Source: `EnhancedNewsFetcher.save_used_article` (lines 41–54). The
`except Exception` clause swallows any raised error (a failed write is
modelled as leaving the file as it was; the theorems below rely only on
the absence of propagation). -/
def save_used_article (w : FileWorld) (article_id : String) (now : Int) :
    FileWorld :=
  match save_used_article_body w article_id now with
  | .ok w2 => w2
  | .error _ => w

/-- Membership in the set returned by `load_used_articles`: this is how
`get_google_news_rss` (line 99, `if article_id not in used_articles`)
consults the store. -/
def isUsed (w : FileWorld) (article_id : String) (now : Int) : Prop :=
  article_id ∈ load_used_articles w now

instance (w : FileWorld) (article_id : String) (now : Int) :
    Decidable (isUsed w article_id now) := by
  unfold isUsed; infer_instance

/-! ### enhanced_news_fetcher.py — articles and selection -/

/-- One RSS article as assembled by `get_google_news_rss` (lines 86–93). -/
structure Article where
  title : String
  description : String
  link : String
  published : String
  topic : String
  source : String
deriving DecidableEq, Repr, Inhabited

/-- Source: `EnhancedNewsFetcher.generate_article_id` (lines 56–59):
`hashlib.md5(f"{article['title']}{article['description']}".encode()).hexdigest()`. -/
def generate_article_id (article : Article) : String :=
  MD5.hexdigest (utf8Bytes (article.title ++ article.description))

/-- Source: `EnhancedNewsFetcher.get_fresh_trending_news` (lines 242–262)
composed with `get_google_news_rss` (lines 61–109): every feed entry whose
id is not in the used set is kept. `feed` is the concatenation of the RSS
results over all topics; `random.shuffle` only permutes the list and is
modelled as the identity permutation (the selection index below already
accounts for the nondeterminism). -/
def get_fresh_trending_news (feed : List Article) (w : FileWorld) (now : Int) :
    List Article :=
  feed.filter (fun a => decide (¬ isUsed w (generate_article_id a) now))

/-- Source: `EnhancedNewsFetcher.select_fresh_article` (lines 264–290).
`pick` models `random.choice`; the third component counts how many full
fetch cycles ran (for the retry-once claim). `os.remove` on the store file
makes it `absent`. -/
def select_fresh_article (feed : List Article) (w : FileWorld) (now : Int)
    (pick : Nat) : Option Article × FileWorld × Nat :=
  let articles := get_fresh_trending_news feed w now
  let step :=
    if articles.isEmpty then
      let w2 : FileWorld := { w with file := .absent }
      (get_fresh_trending_news feed w2 now, w2, 2)
    else (articles, w, 1)
  if step.1.isEmpty then (none, step.2.1, step.2.2)
  else
    let selected := step.1.getD (pick % step.1.length) default
    (some selected,
     save_used_article step.2.1 (generate_article_id selected) now,
     step.2.2)

/-! ### auto_linkedin_poster.py — the posting strategy chain

`AutoLinkedInPoster.auto_post` tries four strategies in a fixed order.
Each API strategy wraps its whole body in `try/except Exception` and
returns a `bool`, so a strategy is a total function of the outcome of its
`requests.post` call (`none` models a raised exception). `auto_post`
itself contains no `try`, so the only call in it that can raise is the
interactive `input()` consent prompt. -/

/-- Outcome of one `requests.post` call: `none` models a raised exception
(timeout, connection error, ...), `some code` a response with HTTP status
`code`. -/
abbrev HttpOutcome := Option Nat

/-- Status acceptance `response.status_code in [200, 201]` shared by the
three API strategies (lines 96, 143, 184). -/
def statusOk (code : Nat) : Bool := code = 200 || code = 201

/-- The `share_data` payload built by `create_simple_share` (lines 86–91). -/
structure ShareData where
  comment : String
  visibility_code : String
deriving DecidableEq, Repr

/-- Source: lines 86–91 of auto_linkedin_poster.py. -/
def share_data (content : String) : ShareData :=
  { comment := content, visibility_code := "anyone" }

/-- The `post_data` payload built by the two UGC strategies
(lines 124–138 and 165–179). -/
structure UgcPostData where
  author : String
  lifecycleState : String
  shareCommentary : String
  shareMediaCategory : String
  memberNetworkVisibility : String
deriving DecidableEq, Repr

/-- Author fallback of `create_ugc_post_v1` (line 122):
`author_urn = self._user_urn or "urn:li:person:~"`. -/
def resolved_author (cachedUrn : Option String) : String :=
  cachedUrn.getD "urn:li:person:~"

/-- Source: lines 124–138 of auto_linkedin_poster.py. -/
def ugc_post_data_v1 (content : String) (cachedUrn : Option String) : UgcPostData :=
  { author := resolved_author cachedUrn
    lifecycleState := "PUBLISHED"
    shareCommentary := content
    shareMediaCategory := "NONE"
    memberNetworkVisibility := "PUBLIC" }

/-- Source: lines 165–179 of auto_linkedin_poster.py. -/
def ugc_post_data_v2 (content : String) : UgcPostData :=
  { author := "urn:li:member:~"
    lifecycleState := "PUBLISHED"
    shareCommentary := content
    shareMediaCategory := "NONE"
    memberNetworkVisibility := "PUBLIC" }

/-- Source: `AutoLinkedInPoster.create_simple_share` (lines 76–106):
returns `True` exactly on a 200/201 response; the function's own
`except Exception` clause converts every raised error into `False`. -/
def create_simple_share (resp : HttpOutcome) : Bool :=
  match resp with
  | none => false
  | some code => statusOk code

/-- Source: `AutoLinkedInPoster.create_ugc_post_v1` (lines 108–153); same
boundary behaviour as `create_simple_share` (the lazy `get_user_info`
call sits inside the same `try`, so its errors are also converted). -/
def create_ugc_post_v1 (resp : HttpOutcome) : Bool :=
  match resp with
  | none => false
  | some code => statusOk code

/-- Source: `AutoLinkedInPoster.create_ugc_post_v2` (lines 155–194). -/
def create_ugc_post_v2 (resp : HttpOutcome) : Bool :=
  match resp with
  | none => false
  | some code => statusOk code

/-- The oracle for one `auto_post` run: token presence, the outcome of
each strategy's network interaction, the result of the `input()` consent
prompt (which may itself raise, e.g. `EOFError` on a closed stdin), and
the overall result of the browser-automation strategy (whose body catches
its own exceptions and returns a `bool`). -/
structure PostEnv where
  hasToken : Bool
  shareResp : HttpOutcome
  ugcV1Resp : HttpOutcome
  ugcV2Resp : HttpOutcome
  consentInput : Except String String
  browserResult : Bool
deriving Repr

/-- Source: `AutoLinkedInPoster.auto_post` (lines 407–452). The value is
the returned boolean together with the list of strategies invoked, in
order (1 = simple share, 2 = UGC v1, 3 = UGC v2, 4 = browser automation);
an `Except.error` models an exception escaping `auto_post` — the body has
no `try`, and the only call in it not already guarded inside a strategy is
the `input()` consent prompt (line 444). -/
def auto_post (env : PostEnv) : Except String (Bool × List Nat) :=
  if !env.hasToken then .ok (false, [])
  else if create_simple_share env.shareResp then .ok (true, [1])
  else if create_ugc_post_v1 env.ugcV1Resp then .ok (true, [1, 2])
  else if create_ugc_post_v2 env.ugcV2Resp then .ok (true, [1, 2, 3])
  else
    match env.consentInput with
    | .error e => .error e
    | .ok s =>
      if pyStrip (pyLower s) = "y" then
        if env.browserResult then .ok (true, [1, 2, 3, 4])
        else .ok (false, [1, 2, 3, 4])
      else .ok (false, [1, 2, 3])

/-- Whether strategy `i` reports success under the oracle `env`. -/
def strategySucceeded (env : PostEnv) : Nat → Bool
  | 1 => create_simple_share env.shareResp
  | 2 => create_ugc_post_v1 env.ugcV1Resp
  | 3 => create_ugc_post_v2 env.ugcV2Resp
  | 4 => env.browserResult
  | _ => false

/-! ### api_linkedin_bot.py — the manual fallback save

`APILinkedInBot.run_automation` (lines 380–395) saves the content for
manual posting when automatic posting failed:

    timestamp = datetime.now().strftime('%Y%m%d_%H%M%S')
    filename = f"linkedin_post_{timestamp}.txt"
    with open(filename, 'w', encoding='utf-8') as f:
        ...
-/

/-- Python `datetime` value, with the fields `strftime('%Y%m%d_%H%M%S')`
reads plus the microseconds that distinguish two calls within the same
second. -/
structure PyDateTime where
  year : Nat
  month : Nat
  day : Nat
  hour : Nat
  minute : Nat
  second : Nat
  microsecond : Nat
deriving DecidableEq, Repr

/-- Zero-padding to two digits (`%m`, `%d`, `%H`, `%M`, `%S`). -/
def pad2 (n : Nat) : String := if n < 10 then "0" ++ toString n else toString n

/-- Zero-padding to four digits (`%Y`). -/
def pad4 (n : Nat) : String :=
  if n < 10 then "000" ++ toString n
  else if n < 100 then "00" ++ toString n
  else if n < 1000 then "0" ++ toString n
  else toString n

/-- Python `t.strftime('%Y%m%d_%H%M%S')`. -/
def strftime_Ymd_HMS (t : PyDateTime) : String :=
  pad4 t.year ++ pad2 t.month ++ pad2 t.day ++ "_" ++
    pad2 t.hour ++ pad2 t.minute ++ pad2 t.second

/-- Source: line 383, `filename = f"linkedin_post_{timestamp}.txt"`. -/
def fallback_filename (t : PyDateTime) : String :=
  "linkedin_post_" ++ strftime_Ymd_HMS t ++ ".txt"

/-- The self-describing artifact written by the `f.write` calls of
lines 386–392 (`generatedAt` models the second `datetime.now()` call
rendered by `str`). -/
def fallback_text (content : String) (imagePath : Option String)
    (sourceUrl generatedAt : String) : String :=
  "LinkedIn Post Content\n" ++ "==============================" ++ "\n\n" ++
    content ++
    (match imagePath with
     | some p => "\n\nImage: " ++ p
     | none => "") ++
    "\n\nSource: " ++ sourceUrl ++ "\nGenerated: " ++ generatedAt

/-- A directory as an association list from filename to contents;
`open(name, 'w')` truncates, so writing replaces any previous contents
stored under the same name. -/
def writeFileW (dir : List (String × String)) (name content : String) :
    List (String × String) :=
  dir.filter (fun e => decide (e.1 ≠ name)) ++ [(name, content)]

/-- Source: the fallback save of `run_automation` (lines 380–395) as a
function of the directory and the wall clock. -/
def save_manual_fallback (dir : List (String × String)) (t : PyDateTime)
    (content : String) (imagePath : Option String)
    (sourceUrl generatedAt : String) : List (String × String) :=
  writeFileW dir (fallback_filename t) (fallback_text content imagePath sourceUrl generatedAt)

/-! ### Concrete inputs used by the witnesses and counterexamples -/

/-- First concrete article for the C4 witness. -/
def c4ArticleA : Article :=
  { title := "X", description := "Y", link := "http://l1", published := "p1",
    topic := "technology", source := "S1" }

/-- Second concrete article for the C4 witness: same title and description,
every other field different. -/
def c4ArticleB : Article :=
  { title := "X", description := "Y", link := "http://l2", published := "p2",
    topic := "ai", source := "S2" }

/-- Concrete environment for the C6 witness: strategy 1 gets a 403,
strategy 2 a 201. -/
def c6Env : PostEnv :=
  { hasToken := true, shareResp := some 403, ugcV1Resp := some 201,
    ugcV2Resp := some 500, consentInput := .ok "n", browserResult := false }

/-- First wall-clock instant for C5: noon sharp. -/
def c5T1 : PyDateTime :=
  { year := 2025, month := 1, day := 1, hour := 12, minute := 0, second := 0,
    microsecond := 0 }

/-- Second wall-clock instant for C5: half a second later, within the same
second. -/
def c5T2 : PyDateTime :=
  { year := 2025, month := 1, day := 1, hour := 12, minute := 0, second := 0,
    microsecond := 500000 }

/-- Third wall-clock instant for the C5 witness: one second after `c5T1`. -/
def c5T3 : PyDateTime :=
  { year := 2025, month := 1, day := 1, hour := 12, minute := 0, second := 1,
    microsecond := 0 }

/-- Concrete environment for the C9 counterexample: the token is present,
all three API strategies fail (one of them by a raised exception), and the
consent prompt itself raises — as `input()` does with `EOFError` when
stdin is closed, e.g. in a CI run. -/
def c9Env : PostEnv :=
  { hasToken := true, shareResp := some 403, ugcV1Resp := none,
    ugcV2Resp := some 500, consentInput := .error "EOFError", browserResult := false }

/-- Concrete environment for the C9 witness: consent prompt answers "n". -/
def c9OkEnv : PostEnv :=
  { hasToken := true, shareResp := some 403, ugcV1Resp := none,
    ugcV2Resp := some 500, consentInput := .ok "n", browserResult := false }

/-- Concrete environment for the C1 witness: strategy 1 succeeds at once. -/
def c1Env : PostEnv :=
  { hasToken := true, shareResp := some 201, ugcV1Resp := none,
    ugcV2Resp := none, consentInput := .ok "n", browserResult := false }

/-- Concrete store for the C3 witness: one prior well-formed entry. -/
def c3World : FileWorld := ⟨.json [("other", .iso 5)], true⟩

/-- Concrete unreadable, write-failing store for the C7 witness. -/
def c7World : FileWorld := ⟨.unreadable, false⟩

/-- Concrete store with one malformed timestamp for the C7 witness. -/
def c7BadWorld : FileWorld := ⟨.json [("a", .malformed)], true⟩

/-- Concrete store for the C8 witness: everything in the (empty) feed is
stale because the feed is empty. -/
def c8World : FileWorld := ⟨.json [("x", .iso 0)], true⟩

/-! ## Claim theorems -/

/-- Validation of the MD5 embedding against the RFC 1321 test vector for
the empty message. -/
theorem md5_vector_empty :
    MD5.hexdigest (utf8Bytes "") = "d41d8cd98f00b204e9800998ecf8427e" := by decide

/-- Validation of the MD5 embedding against the digest `hashlib` computes
for "XY" (the concatenated title "X" and description "Y" of the spec
example scenario). -/
theorem md5_vector_XY :
    MD5.hexdigest (utf8Bytes "XY") = "74c53bcd3dcb2bb79993b2fec37d362a" := by decide

/-- C10: every API posting strategy in the chain publishes with public
visibility: the simple share strategy always sends visibility code
"anyone", and both UGC strategies always send MemberNetworkVisibility
"PUBLIC", whatever the content and whatever author identity was resolved;
no strategy offers a code path that creates a non-public post. -/
theorem c10_all_strategies_public (content : String) (cachedUrn : Option String) :
    (share_data content).visibility_code = "anyone" ∧
    (ugc_post_data_v1 content cachedUrn).memberNetworkVisibility = "PUBLIC" ∧
    (ugc_post_data_v2 content).memberNetworkVisibility = "PUBLIC" :=
  ⟨rfl, rfl, rfl⟩

/-- C4: the article fingerprint is a deterministic function of title and
description only: two articles agreeing on `(title, description)` receive
the same id, whatever their link, published date, topic or source. -/
theorem c4_fingerprint_deterministic (A B : Article)
    (ht : A.title = B.title) (hd : A.description = B.description) :
    generate_article_id A = generate_article_id B := by
  unfold generate_article_id
  rw [ht, hd]

/-- Witness for C4 at two concrete articles differing in link, published
date, topic and source. -/
theorem c4_fingerprint_deterministic_witness :
    c4ArticleA.title = c4ArticleB.title ∧
    c4ArticleA.description = c4ArticleB.description ∧
    generate_article_id c4ArticleA = generate_article_id c4ArticleB :=
  ⟨rfl, rfl, c4_fingerprint_deterministic c4ArticleA c4ArticleB rfl rfl⟩

/-- Exhaustive enumeration of the normally-returning runs of `auto_post`:
which strategies were invoked and what was returned, as a function of the
oracle. -/
theorem auto_post_run_cases (env : PostEnv) (b : Bool) (tr : List Nat)
    (hrun : auto_post env = .ok (b, tr)) :
    (env.hasToken = false ∧ b = false ∧ tr = []) ∨
    (env.hasToken = true ∧ create_simple_share env.shareResp = true ∧
      b = true ∧ tr = [1]) ∨
    (env.hasToken = true ∧ create_simple_share env.shareResp = false ∧
      create_ugc_post_v1 env.ugcV1Resp = true ∧ b = true ∧ tr = [1, 2]) ∨
    (env.hasToken = true ∧ create_simple_share env.shareResp = false ∧
      create_ugc_post_v1 env.ugcV1Resp = false ∧
      create_ugc_post_v2 env.ugcV2Resp = true ∧ b = true ∧ tr = [1, 2, 3]) ∨
    (env.hasToken = true ∧ create_simple_share env.shareResp = false ∧
      create_ugc_post_v1 env.ugcV1Resp = false ∧
      create_ugc_post_v2 env.ugcV2Resp = false ∧
      ((b = env.browserResult ∧ tr = [1, 2, 3, 4]) ∨ (b = false ∧ tr = [1, 2, 3]))) := by
  unfold auto_post at hrun
  split at hrun
  next h =>
    simp only [Bool.not_eq_true'] at h
    simp only [Except.ok.injEq, Prod.mk.injEq] at hrun
    exact Or.inl ⟨h, hrun.1.symm, hrun.2.symm⟩
  next h =>
    have htok : env.hasToken = true := by
      cases hv : env.hasToken
      · exact absurd (by simp [hv]) h
      · rfl
    split at hrun
    next h1 =>
      simp only [Except.ok.injEq, Prod.mk.injEq] at hrun
      exact Or.inr (Or.inl ⟨htok, h1, hrun.1.symm, hrun.2.symm⟩)
    next h1 =>
      have h1f : create_simple_share env.shareResp = false := by
        simpa using h1
      split at hrun
      next h2 =>
        simp only [Except.ok.injEq, Prod.mk.injEq] at hrun
        exact Or.inr (Or.inr (Or.inl ⟨htok, h1f, h2, hrun.1.symm, hrun.2.symm⟩))
      next h2 =>
        have h2f : create_ugc_post_v1 env.ugcV1Resp = false := by
          simpa using h2
        split at hrun
        next h3 =>
          simp only [Except.ok.injEq, Prod.mk.injEq] at hrun
          exact Or.inr (Or.inr (Or.inr (Or.inl
            ⟨htok, h1f, h2f, h3, hrun.1.symm, hrun.2.symm⟩)))
        next h3 =>
          have h3f : create_ugc_post_v2 env.ugcV2Resp = false := by
            simpa using h3
          refine Or.inr (Or.inr (Or.inr (Or.inr ⟨htok, h1f, h2f, h3f, ?_⟩)))
          split at hrun
          · exact absurd hrun (by simp)
          next s hs =>
            split at hrun
            next hy =>
              split at hrun
              next hb4 =>
                simp only [Except.ok.injEq, Prod.mk.injEq] at hrun
                exact Or.inl ⟨by rw [← hrun.1, hb4], hrun.2.symm⟩
              next hb4 =>
                have hb4f : env.browserResult = false := by
                  simpa using hb4
                simp only [Except.ok.injEq, Prod.mk.injEq] at hrun
                exact Or.inl ⟨by rw [← hrun.1, hb4f], hrun.2.symm⟩
            next hy =>
              simp only [Except.ok.injEq, Prod.mk.injEq] at hrun
              exact Or.inr ⟨hrun.1.symm, hrun.2.symm⟩

/-- C6: a failing strategy advances the chain instead of aborting the run:
on any normally-returning run in which strategy 1 failed, strategy 2 was
invoked; if strategy 2 also failed, strategy 3 was invoked; and in the
concrete scenario where strategy 1 receives HTTP 403 and strategy 2
HTTP 201, the run returns success via strategy 2 with strategies 3 and 4
never invoked. -/
theorem c6_failure_advances_chain (env : PostEnv) (htok : env.hasToken = true) :
    (∀ b tr, auto_post env = .ok (b, tr) →
      create_simple_share env.shareResp = false → 2 ∈ tr) ∧
    (∀ b tr, auto_post env = .ok (b, tr) →
      create_simple_share env.shareResp = false →
      create_ugc_post_v1 env.ugcV1Resp = false → 3 ∈ tr) ∧
    (env.shareResp = some 403 → env.ugcV1Resp = some 201 →
      auto_post env = .ok (true, [1, 2])) := by
  refine ⟨?_, ?_, ?_⟩
  · intro b tr hrun hfail
    rcases auto_post_run_cases env b tr hrun with
      ⟨h, _, _⟩ | ⟨_, h1, _, _⟩ | ⟨_, _, _, _, htr⟩ | ⟨_, _, _, _, _, htr⟩ |
      ⟨_, _, _, _, hlast⟩
    · rw [h] at htok; exact absurd htok (by decide)
    · rw [hfail] at h1; exact absurd h1 (by decide)
    · subst htr; simp
    · subst htr; simp
    · rcases hlast with ⟨_, htr⟩ | ⟨_, htr⟩ <;> (subst htr; simp)
  · intro b tr hrun hfail1 hfail2
    rcases auto_post_run_cases env b tr hrun with
      ⟨h, _, _⟩ | ⟨_, h1, _, _⟩ | ⟨_, _, h2, _, _⟩ | ⟨_, _, _, _, _, htr⟩ |
      ⟨_, _, _, _, hlast⟩
    · rw [h] at htok; exact absurd htok (by decide)
    · rw [hfail1] at h1; exact absurd h1 (by decide)
    · rw [hfail2] at h2; exact absurd h2 (by decide)
    · subst htr; simp
    · rcases hlast with ⟨_, htr⟩ | ⟨_, htr⟩ <;> (subst htr; simp)
  · intro h1 h2
    simp [auto_post, create_simple_share, create_ugc_post_v1, statusOk, htok, h1, h2]

/-- Witness for C6 at the concrete 403-then-201 environment. -/
theorem c6_failure_advances_chain_witness : auto_post c6Env = .ok (true, [1, 2]) :=
  (c6_failure_advances_chain c6Env rfl).2.2 rfl rfl

/-- C2 (code bug): with the configured limit 1300, a generated post of
1400 characters is handed on unchanged: the truncation block of
`_format_linkedin_post` rewrites `summary` to `summary[:-excess] + "..."`
and then asks `replace` to find `summary + "..."` — that is, the truncated
summary followed by six dots — which does not occur in the template, so
nothing is replaced and the over-long text is returned as the caption that
`main.py` hands to `auto_post`. -/
theorem c2_truncation_fails :
    (format_linkedin_post MAX_CAPTION_LENGTH 0 c2Title c2Summary "technology" "News"
        "http://e.com").length = 1400 ∧
    MAX_CAPTION_LENGTH <
      (format_linkedin_post MAX_CAPTION_LENGTH 0 c2Title c2Summary "technology" "News"
        "http://e.com").length := by
  decide

/-- Counterexample to C5 as stated: two save invocations in the same
second with different content produce one file, not two — the filename is
built from the second-granularity timestamp alone (no content hash), so
the second write replaces the first record. -/
theorem c5_counterexample_same_second_overwrites :
    c5T1 ≠ c5T2 ∧
    (save_manual_fallback (save_manual_fallback [] c5T1 "content A" none "srcA" "genA")
        c5T2 "content B" none "srcB" "genB") =
      [(fallback_filename c5T2, fallback_text "content B" none "srcB" "genB")] := by
  constructor
  · decide
  · rfl

/-- Distinct formatted timestamps give distinct fallback filenames. -/
theorem fallback_filename_injective (t1 t2 : PyDateTime)
    (h : strftime_Ymd_HMS t1 ≠ strftime_Ymd_HMS t2) :
    fallback_filename t1 ≠ fallback_filename t2 := by
  intro he
  apply h
  have hd := congrArg String.data he
  simp only [fallback_filename, String.data_append, List.append_assoc] at hd
  exact String.ext (List.append_cancel_right (List.append_cancel_left hd))

/-- C5 (amended): fallback filenames are built from the second-granularity
timestamp only; two saves whose timestamps differ in the formatted string
produce two distinct files, and the earlier record survives the later
write — but two saves within the same second share one filename and the
later overwrites the earlier (see the counterexample). -/
theorem c5_distinct_seconds_distinct_files (dir : List (String × String))
    (t1 t2 : PyDateTime) (c1 c2 : String) (i1 i2 : Option String)
    (u1 u2 g1 g2 : String)
    (hts : strftime_Ymd_HMS t1 ≠ strftime_Ymd_HMS t2) :
    fallback_filename t1 ≠ fallback_filename t2 ∧
    (fallback_filename t1, fallback_text c1 i1 u1 g1) ∈
      save_manual_fallback (save_manual_fallback dir t1 c1 i1 u1 g1) t2 c2 i2 u2 g2 ∧
    (fallback_filename t2, fallback_text c2 i2 u2 g2) ∈
      save_manual_fallback (save_manual_fallback dir t1 c1 i1 u1 g1) t2 c2 i2 u2 g2 := by
  have hne := fallback_filename_injective t1 t2 hts
  refine ⟨hne, ?_, ?_⟩
  · simp [save_manual_fallback, writeFileW, List.mem_filter, hne]
  · simp [save_manual_fallback, writeFileW]

/-- Witness for the amended C5 at two concrete instants one second apart. -/
theorem c5_distinct_seconds_distinct_files_witness :
    fallback_filename c5T1 ≠ fallback_filename c5T3 ∧
    (fallback_filename c5T1, fallback_text "content A" none "srcA" "genA") ∈
      save_manual_fallback (save_manual_fallback [] c5T1 "content A" none "srcA" "genA")
        c5T3 "content B" none "srcB" "genB" ∧
    (fallback_filename c5T3, fallback_text "content B" none "srcB" "genB") ∈
      save_manual_fallback (save_manual_fallback [] c5T1 "content A" none "srcA" "genA")
        c5T3 "content B" none "srcB" "genB" :=
  c5_distinct_seconds_distinct_files [] c5T1 c5T3 "content A" "content B" none none
    "srcA" "srcB" "genA" "genB" (by decide)

/-- Counterexample to C9 as stated: `auto_post` contains no `try`, so an
exception raised by the `input()` consent prompt propagates past the
caller instead of being converted into a boolean. -/
theorem c9_counterexample_consent_raises :
    auto_post c9Env = .error "EOFError" := rfl

/-- C9 (amended): provided the interactive consent prompt returns normally,
`auto_post` never raises past its caller and returns a boolean; every
external-call failure inside a strategy (a raised `requests` exception,
modelled by `none`) is caught at that strategy boundary and converted into
the strategy's `False` result. -/
theorem c9_no_raise_when_consent_ok (env : PostEnv) (s : String)
    (h : env.consentInput = .ok s) :
    (∃ b tr, auto_post env = .ok (b, tr)) ∧
    create_simple_share none = false ∧
    create_ugc_post_v1 none = false ∧
    create_ugc_post_v2 none = false := by
  refine ⟨?_, rfl, rfl, rfl⟩
  unfold auto_post
  rw [h]
  by_cases htok : env.hasToken <;>
  by_cases h1 : create_simple_share env.shareResp <;>
  by_cases h2 : create_ugc_post_v1 env.ugcV1Resp <;>
  by_cases h3 : create_ugc_post_v2 env.ugcV2Resp <;>
  by_cases hy : pyStrip (pyLower s) = "y" <;>
  by_cases hb : env.browserResult <;>
  simp [htok, h1, h2, h3, hy, hb]

/-- Witness for the amended C9 at a concrete environment whose consent
prompt returns normally. -/
theorem c9_no_raise_when_consent_ok_witness :
    (∃ b tr, auto_post c9OkEnv = .ok (b, tr)) ∧
    create_simple_share none = false ∧
    create_ugc_post_v1 none = false ∧
    create_ugc_post_v2 none = false :=
  c9_no_raise_when_consent_ok c9OkEnv "n" rfl

/-- C1: once some strategy reports success during an `auto_post` run, the
chain halts and returns success immediately: at most one invoked strategy
succeeds (at most one post per invocation), and whenever an invoked
strategy succeeded, the run returned `True` and no strategy later in the
fixed order was invoked. -/
theorem c1_halts_on_first_success (env : PostEnv) (b : Bool) (tr : List Nat)
    (hrun : auto_post env = .ok (b, tr)) :
    List.countP (fun i => strategySucceeded env i) tr ≤ 1 ∧
    ∀ i ∈ tr, strategySucceeded env i = true → b = true ∧ ∀ j ∈ tr, j ≤ i := by
  unfold auto_post at hrun
  split at hrun
  · -- no access token: nothing invoked
    simp only [Except.ok.injEq, Prod.mk.injEq] at hrun
    obtain ⟨hb', htr'⟩ := hrun
    subst hb'; subst htr'
    simp
  · split at hrun
    next h1 =>
      -- strategy 1 succeeded
      simp only [Except.ok.injEq, Prod.mk.injEq] at hrun
      obtain ⟨hb', htr'⟩ := hrun
      subst hb'; subst htr'
      constructor
      · simp [strategySucceeded, h1]
      · intro i hi hs
        simp only [List.mem_singleton] at hi
        subst hi
        exact ⟨rfl, by simp⟩
    next h1 =>
      split at hrun
      next h2 =>
        -- strategy 2 succeeded
        simp only [Except.ok.injEq, Prod.mk.injEq] at hrun
        obtain ⟨hb', htr'⟩ := hrun
        subst hb'; subst htr'
        constructor
        · simp [strategySucceeded, h1, h2]
        · intro i hi hs
          simp only [List.mem_cons, List.mem_singleton] at hi
          rcases hi with rfl | rfl | hi
          · exact absurd hs (by simpa [strategySucceeded] using h1)
          · exact ⟨rfl, by simp⟩
          · simp at hi
      next h2 =>
        split at hrun
        next h3 =>
          -- strategy 3 succeeded
          simp only [Except.ok.injEq, Prod.mk.injEq] at hrun
          obtain ⟨hb', htr'⟩ := hrun
          subst hb'; subst htr'
          constructor
          · simp [strategySucceeded, h1, h2, h3]
          · intro i hi hs
            simp only [List.mem_cons, List.mem_singleton] at hi
            rcases hi with rfl | rfl | rfl | hi
            · exact absurd hs (by simpa [strategySucceeded] using h1)
            · exact absurd hs (by simpa [strategySucceeded] using h2)
            · exact ⟨rfl, by simp⟩
            · simp at hi
        next h3 =>
          -- all API strategies failed: the consent prompt runs
          split at hrun
          · -- input() raised: auto_post did not return
            exact absurd hrun (by simp)
          next s hs' =>
            split at hrun
            next hy =>
              split at hrun
              next hb4 =>
                -- browser automation succeeded
                simp only [Except.ok.injEq, Prod.mk.injEq] at hrun
                obtain ⟨hb', htr'⟩ := hrun
                subst hb'; subst htr'
                constructor
                · simp [strategySucceeded, h1, h2, h3, hb4]
                · intro i hi hsucc
                  simp only [List.mem_cons, List.mem_singleton] at hi
                  rcases hi with rfl | rfl | rfl | rfl | hi
                  · exact absurd hsucc (by simpa [strategySucceeded] using h1)
                  · exact absurd hsucc (by simpa [strategySucceeded] using h2)
                  · exact absurd hsucc (by simpa [strategySucceeded] using h3)
                  · exact ⟨rfl, by simp⟩
                  · simp at hi
              next hb4 =>
                -- browser automation failed
                simp only [Except.ok.injEq, Prod.mk.injEq] at hrun
                obtain ⟨hb', htr'⟩ := hrun
                subst hb'; subst htr'
                constructor
                · simp [strategySucceeded, h1, h2, h3, hb4]
                · intro i hi hsucc
                  simp only [List.mem_cons, List.mem_singleton] at hi
                  rcases hi with rfl | rfl | rfl | rfl | hi
                  · exact absurd hsucc (by simpa [strategySucceeded] using h1)
                  · exact absurd hsucc (by simpa [strategySucceeded] using h2)
                  · exact absurd hsucc (by simpa [strategySucceeded] using h3)
                  · exact absurd hsucc (by simpa [strategySucceeded] using hb4)
                  · simp at hi
            next hy =>
              -- consent declined
              simp only [Except.ok.injEq, Prod.mk.injEq] at hrun
              obtain ⟨hb', htr'⟩ := hrun
              subst hb'; subst htr'
              constructor
              · simp [strategySucceeded, h1, h2, h3]
              · intro i hi hsucc
                simp only [List.mem_cons, List.mem_singleton] at hi
                rcases hi with rfl | rfl | rfl | hi
                · exact absurd hsucc (by simpa [strategySucceeded] using h1)
                · exact absurd hsucc (by simpa [strategySucceeded] using h2)
                · exact absurd hsucc (by simpa [strategySucceeded] using h3)
                · simp at hi

/-- Witness for C1 at a concrete run in which strategy 1 succeeds:
`auto_post` returns `(true, [1])` and the conclusions of the theorem hold for
that trace. -/
theorem c1_halts_on_first_success_witness :
    List.countP (fun i => strategySucceeded c1Env i) [1] ≤ 1 ∧
    ∀ i ∈ [1], strategySucceeded c1Env i = true → true = true ∧ ∀ j ∈ [1], j ≤ i :=
  c1_halts_on_first_success c1Env true [1] rfl

/-- Saving into a well-formed store file yields the upserted dictionary
(the write succeeds when `writeOk` holds). -/
theorem save_into_json (es : List (String × StoredTime)) (id : String) (t : Int) :
    save_used_article ⟨.json es, true⟩ id t = ⟨.json (dictSet es id t), true⟩ := rfl

/-- Saving into an absent store file creates the one-entry dictionary. -/
theorem save_into_absent (id : String) (t : Int) :
    save_used_article ⟨.absent, true⟩ id t = ⟨.json (dictSet [] id t), true⟩ := rfl

/-- Membership in the loaded set after an upsert: the saved id is reported
as used exactly while its timestamp is inside the retention window. -/
theorem isUsed_json_dictSet (es : List (String × StoredTime)) (b : Bool)
    (id : String) (t now : Int)
    (hwf : ∀ e ∈ es, e.2 ≠ StoredTime.malformed) :
    isUsed ⟨.json (dictSet es id t), b⟩ id now ↔ now - sevenDays < t := by
  have hwf2 : ∀ e ∈ dictSet es id t, e.2 ≠ StoredTime.malformed := by
    intro e he
    rcases List.mem_append.1 he with h | h
    · exact hwf e (List.mem_filter.1 h).1
    · simp only [List.mem_singleton] at h
      subst h
      simp
  unfold isUsed load_used_articles load_used_articles_body
  dsimp only
  rw [if_pos hwf2]
  constructor
  · intro h
    rcases List.mem_map.1 h with ⟨e, hmem, hfst⟩
    rcases List.mem_filter.1 hmem with ⟨hin, hkeep⟩
    rcases List.mem_append.1 hin with hl | hr
    · rcases List.mem_filter.1 hl with ⟨_, hne⟩
      rw [decide_eq_true_iff] at hne
      exact absurd hfst hne
    · simp only [List.mem_singleton] at hr
      subst hr
      simpa [freshKeep] using hkeep
  · intro h
    refine List.mem_map.2 ⟨(id, StoredTime.iso t),
      List.mem_filter.2 ⟨List.mem_append.2 (Or.inr (by simp)), ?_⟩, rfl⟩
    simpa [freshKeep] using h

/-- C3: a fingerprint marked used at time `t` is reported as used by every
query at a time `tq` with `t ≤ tq < t + retentionWindow` (seven days) and
as unused once `tq ≥ t + retentionWindow` — provided the store is
writable and contains no timestamp `fromisoformat` would reject (which is
true of every file the program itself writes). -/
theorem c3_retention_window (w : FileWorld) (id : String) (t tq : Int)
    (hw : w.writeOk = true) (hwf : w.file.wellFormed) (hle : t ≤ tq) :
    (isUsed (save_used_article w id t) id tq ↔ tq < t + sevenDays) := by
  rcases w with ⟨f, wk⟩
  dsimp at hw
  subst hw
  have key : ∀ es, (∀ e ∈ es, e.2 ≠ StoredTime.malformed) →
      (isUsed ⟨.json (dictSet es id t), true⟩ id tq ↔ tq < t + sevenDays) := by
    intro es hes
    rw [isUsed_json_dictSet es true id t tq hes]
    omega
  cases f with
  | unreadable => exact absurd hwf (fun h => h)
  | absent => rw [save_into_absent]; exact key [] (by simp)
  | json es => rw [save_into_json]; exact key es hwf

/-- Witness for C3: marking at time 0 and querying at the last second of
the window (`604799 = 7*86400 - 1`). -/
theorem c3_retention_window_witness :
    isUsed (save_used_article c3World "a" 0) "a" 604799 ↔ (604799 : Int) < 0 + sevenDays :=
  c3_retention_window c3World "a" 0 604799 rfl (by decide) (by decide)

/-- C7: the deduplication store fails open and persists best-effort: an
unreadable or corrupt backing file loads as the empty set (all articles
look fresh) instead of raising, a stored timestamp `fromisoformat`
rejects likewise loads as the empty set, and a failing write leaves the
world unchanged instead of propagating. -/
theorem c7_fail_open_best_effort (w : FileWorld) (id : String) (now : Int) :
    (w.file = .unreadable → load_used_articles w now = []) ∧
    (∀ es, w.file = .json es → (∃ e ∈ es, e.2 = StoredTime.malformed) →
      load_used_articles w now = []) ∧
    (w.writeOk = false → save_used_article w id now = w) := by
  refine ⟨?_, ?_, ?_⟩
  · intro h
    simp [load_used_articles, load_used_articles_body, h]
  · rintro es h ⟨e, he, hm⟩
    have hnot : ¬ ∀ x ∈ es, x.2 ≠ StoredTime.malformed := fun hall => hall e he hm
    simp [load_used_articles, load_used_articles_body, h, if_neg hnot]
  · intro h
    cases hf : w.file <;>
    simp [save_used_article, save_used_article_body, hf, h]

/-- Witness for C7 at the concrete corrupt and write-failing stores. -/
theorem c7_fail_open_best_effort_witness :
    load_used_articles c7World 0 = [] ∧
    load_used_articles c7BadWorld 0 = [] ∧
    save_used_article c7World "a" 0 = c7World :=
  ⟨(c7_fail_open_best_effort c7World "a" 0).1 rfl,
   (c7_fail_open_best_effort c7BadWorld "a" 0).2.1 [("a", .malformed)] rfl
     ⟨("a", .malformed), by simp, rfl⟩,
   (c7_fail_open_best_effort c7World "a" 0).2.2 rfl⟩

/-- C8: when a full fetch cycle yields zero unused articles,
`select_fresh_article` removes the deduplication store file and retries
exactly once (fetch count 2); if even the reset cycle yields nothing it
returns an empty result (`none`) without raising, and running the reset
path again straight away again returns `none` instead of looping. -/
theorem c8_reset_and_retry_once (feed : List Article) (w : FileWorld)
    (now : Int) (pick pick2 : Nat)
    (h1 : get_fresh_trending_news feed w now = [])
    (h2 : get_fresh_trending_news feed { w with file := .absent } now = []) :
    (select_fresh_article feed w now pick).2.2 = 2 ∧
    (select_fresh_article feed w now pick).2.1 = { w with file := .absent } ∧
    (select_fresh_article feed w now pick).1 = none ∧
    (select_fresh_article feed ((select_fresh_article feed w now pick).2.1) now
      pick2).1 = none := by
    simp [select_fresh_article, h1, h2]

/-- Witness for C8 at the empty feed. -/
theorem c8_reset_and_retry_once_witness :
    (select_fresh_article [] c8World 0 0).2.2 = 2 ∧
    (select_fresh_article [] c8World 0 0).2.1 = { c8World with file := .absent } ∧
    (select_fresh_article [] c8World 0 0).1 = none ∧
    (select_fresh_article [] ((select_fresh_article [] c8World 0 0).2.1) 0 0).1 = none :=
  c8_reset_and_retry_once [] c8World 0 0 0 rfl rfl
